import Mathlib

/-!
Verification of the MDIC (Manufacturing Decision Impact Calculator) engine.

The source is a single React component whose calculation core consists of:
  * `num`, the coercion utility (`Number(v)` followed by a finiteness check);
  * `money`, the currency formatter;
  * `baseline`, `overtimeCalc`, `delayCapexCalc`, the per-decision formulas;
  * `active`, the decision selector, and `isReady`, the readiness flag.

Field state in the component is a JavaScript value that is either a number
(possibly `NaN` or `±Infinity`) or the empty string `""` kept while the user
is typing.  We model such a value as `JSVal` and JavaScript numbers as exact
rationals; every formula first coerces its inputs through `num`, so all
arithmetic below happens on rationals.
-/

/-- A value held in one of the component's numeric field states: a finite
number, `NaN`, `+Infinity`, `-Infinity`, or the empty-string sentinel kept
while the user is typing. -/
inductive JSVal where
  | fin (q : ℚ)
  | nan
  | posInf
  | negInf
  | emptyStr
  deriving DecidableEq

/-- JavaScript `Number(v)` on the values a field state can hold: numbers pass
through unchanged and the empty string converts to `0` (in JavaScript,
`Number("") === 0`).  The result is always a number, never the sentinel. -/
def toNumber : JSVal → JSVal
  | .emptyStr => .fin 0
  | v => v

/-- JavaScript `Number.isFinite`: true exactly on finite numbers. -/
def isFiniteNum : JSVal → Bool
  | .fin _ => true
  | _ => false

/-- The rational carried by a finite number (`0` on the other constructors,
which is never relied upon). -/
def finVal : JSVal → ℚ
  | .fin q => q
  | _ => 0

/-- Source `num(v, fallback = 0)`: `const n = Number(v); return
Number.isFinite(n) ? n : fallback;`.  The fallback is itself a number. -/
def num (v : JSVal) (fallback : ℚ) : ℚ :=
  let n := toNumber v
  if isFiniteNum n then finVal n else fallback

/-- Modelled from the spec: the host locale's currency rendering
(`Number.prototype.toLocaleString` with currency style and code USD), which
is host-library behaviour not present under `src/`.  Modelled as an exact
decimal rendering prefixed by the currency symbol; the claims only need that
it is a total function of the amount. -/
def formatCurrencyUSD (q : ℚ) : String := "$" ++ toString q

/-- Source `money(n)`: `const v = Number(n); if (!Number.isFinite(v)) return
"$0"; return v.toLocaleString(undefined, currency USD);`. -/
def money (n : JSVal) : String :=
  let v := toNumber n
  if isFiniteNum v then formatCurrencyUSD (finVal v) else "$0"

/-- The component's input state: the common fields, the overtime fields and
the delay-CAPEX fields, each a raw `JSVal` exactly as held in React state. -/
structure Inputs where
  horizonWeeks : JSVal
  runtimePerWeek : JSVal
  baselineUnitsPerHr : JSVal
  laborRate : JSVal
  sellPrice : JSVal
  cmPct : JSVal
  overheadPct : JSVal
  otHours : JSVal
  otPremium : JSVal
  fatiguePerfDeltaPct : JSVal
  fatigueScrapDeltaPp : JSVal
  fatigueDowntimeDeltaHr : JSVal
  capexAmount : JSVal
  annualSavings : JSVal
  deploymentLeadWeeks : JSVal
  costOfCapitalPct : JSVal
  deriving DecidableEq

/-- The `baseline` memo's record. -/
structure Baseline where
  units : ℚ
  goodUnitsPerHr : ℚ
  cm : ℚ
  oppCostPerHr : ℚ
  deriving DecidableEq

/-- Source `baseline` memo: units, good units per hour (proxy), contribution
margin fraction and opportunity cost per hour. -/
def baseline (s : Inputs) : Baseline :=
  let units := num s.baselineUnitsPerHr 0 * num s.runtimePerWeek 0
  let goodUnitsPerHr := num s.baselineUnitsPerHr 0
  let cm := num s.cmPct 0 / 100
  let oppCostPerHr := goodUnitsPerHr * num s.sellPrice 0 * cm
  ⟨units, goodUnitsPerHr, cm, oppCostPerHr⟩

/-- The record returned by the overtime formula. -/
structure OvertimeResult where
  otLaborCost : ℚ
  perfDeltaUnits : ℚ
  scrapDeltaUnits : ℚ
  downtimeDeltaUnits : ℚ
  deltaGoodUnits : ℚ
  profitFromUnits : ℚ
  netImpactPerWeek : ℚ
  totalImpact : ℚ
  deriving DecidableEq

/-- Source `overtimeCalc` memo, line for line: overhead multiplier, overtime
labor cost, the three fatigue deltas, net good-units delta, profit from units
(only when a selling price is supplied), and the two headline impacts. -/
def overtimeCalc (s : Inputs) : OvertimeResult :=
  let b := baseline s
  let oh := 1 + num s.overheadPct 0 / 100
  let otLaborCost := num s.otHours 0 * num s.laborRate 0 * num s.otPremium 0 * oh
  let perfDeltaUnits := b.units * (num s.fatiguePerfDeltaPct 0 / 100)
  let scrapDeltaUnits := b.units * (num s.fatigueScrapDeltaPp 0 / 100)
  let downtimeDeltaUnits := num s.fatigueDowntimeDeltaHr 0 * num s.baselineUnitsPerHr 0
  let deltaGoodUnits := perfDeltaUnits - scrapDeltaUnits - downtimeDeltaUnits
  let profitFromUnits :=
    if num s.sellPrice 0 > 0 then deltaGoodUnits * num s.sellPrice 0 * b.cm else 0
  let netImpactPerWeek := profitFromUnits - otLaborCost
  let totalImpact := netImpactPerWeek * num s.horizonWeeks 0
  ⟨otLaborCost, perfDeltaUnits, scrapDeltaUnits, downtimeDeltaUnits,
    deltaGoodUnits, profitFromUnits, netImpactPerWeek, totalImpact⟩

/-- The record returned by the delay-CAPEX formula (echoed inputs included,
as in the source). -/
structure DelayCapexResult where
  capexAmount : ℚ
  annualSavings : ℚ
  deploymentLeadWeeks : ℚ
  costOfCapitalPct : ℚ
  missedBenefitWeeks : ℚ
  lostSavingsWithinHorizon : ℚ
  carryingCostWithinHorizon : ℚ
  netImpactPerWeek : ℚ
  totalImpact : ℚ
  deriving DecidableEq

/-- Source intermediate `savingsPerWeek = num(annualSavings) / 52` of the
delay-CAPEX formula. -/
def savingsPerWeekOf (s : Inputs) : ℚ := num s.annualSavings 0 / 52

/-- Source `delayCapexCalc` memo, line for line: savings per week, missed
benefit weeks (floored at zero with `Math.max`), lost savings within the
horizon, the carrying-cost side figure, and the two headline impacts. -/
def delayCapexCalc (s : Inputs) : DelayCapexResult :=
  let horizon := num s.horizonWeeks 0
  let lead := num s.deploymentLeadWeeks 0
  let savingsPerWeek := num s.annualSavings 0 / 52
  let missedBenefitWeeks := max 0 (horizon - lead)
  let lostSavingsWithinHorizon := savingsPerWeek * missedBenefitWeeks
  let costOfCapitalPerWeek := (num s.costOfCapitalPct 0 / 100) / 52
  let carryingCostWithinHorizon := num s.capexAmount 0 * costOfCapitalPerWeek * horizon
  let netImpactPerWeek := if horizon > 0 then -(lostSavingsWithinHorizon / horizon) else 0
  let totalImpact := -lostSavingsWithinHorizon
  ⟨num s.capexAmount 0, num s.annualSavings 0, num s.deploymentLeadWeeks 0,
    num s.costOfCapitalPct 0, missedBenefitWeeks, lostSavingsWithinHorizon,
    carryingCostWithinHorizon, netImpactPerWeek, totalImpact⟩

/-- The six decision identifiers of the `DECISIONS` list. -/
inductive DecisionId where
  | overtime
  | temp
  | headcount
  | deferpm
  | rate
  | capex
  deriving DecidableEq

/-- The record the selector can expose: one of the two computed records. -/
inductive ActiveResult where
  | overtime (r : OvertimeResult)
  | capex (r : DelayCapexResult)
  deriving DecidableEq

/-- Source `active` memo: the overtime record for `"overtime"`, the
delay-CAPEX record for `"capex"`, and `null` for every other identifier. -/
def active (decision : DecisionId) (s : Inputs) : Option ActiveResult :=
  if decision = .overtime then some (.overtime (overtimeCalc s))
  else if decision = .capex then some (.capex (delayCapexCalc s))
  else none

/-- Source `isReady`: the four required common fields must all coerce to
strictly positive numbers. -/
def isReady (s : Inputs) : Bool :=
  decide (num s.horizonWeeks 0 > 0) && decide (num s.runtimePerWeek 0 > 0) &&
    decide (num s.baselineUnitsPerHr 0 > 0) && decide (num s.laborRate 0 > 0)

/-- Source results panel guard (`!isReady || !active ? prompt : results`):
the record actually exposed for display, or `none` when the prompt is shown
instead. -/
def shownRecord (decision : DecisionId) (s : Inputs) : Option ActiveResult :=
  if isReady s && (active decision s).isSome then active decision s else none

/-- Replaces only the fatigue scrap delta field, keeping every other field. -/
def withScrap (s : Inputs) (v : JSVal) : Inputs :=
  ⟨s.horizonWeeks, s.runtimePerWeek, s.baselineUnitsPerHr, s.laborRate,
    s.sellPrice, s.cmPct, s.overheadPct, s.otHours, s.otPremium,
    s.fatiguePerfDeltaPct, v, s.fatigueDowntimeDeltaHr,
    s.capexAmount, s.annualSavings, s.deploymentLeadWeeks, s.costOfCapitalPct⟩

/-- Replaces only the CAPEX amount and cost-of-capital fields, keeping every
other field. -/
def withCapexFields (s : Inputs) (c k : JSVal) : Inputs :=
  ⟨s.horizonWeeks, s.runtimePerWeek, s.baselineUnitsPerHr, s.laborRate,
    s.sellPrice, s.cmPct, s.overheadPct, s.otHours, s.otPremium,
    s.fatiguePerfDeltaPct, s.fatigueScrapDeltaPp, s.fatigueDowntimeDeltaHr,
    c, s.annualSavings, s.deploymentLeadWeeks, k⟩

/-- The spec's running example input set (section 8), all fields finite. -/
def exInputs : Inputs :=
  ⟨.fin 6, .fin 40, .fin 50, .fin 35, .fin 0, .fin 35, .fin 0,
    .fin 10, .fin (3/2), .fin (-3), .fin (1/2), .fin (1/5),
    .fin 100000, .fin 40000, .fin 8, .fin 10⟩

/-- Claim C1: for every input parameter set, the overtime record satisfies
exactly the specified equations for `otLaborCost`, `deltaGoodUnits` (through
`baselineUnits = baselineOutputRate * runtimePerWeek`), `profitFromUnits`
(zero unless the selling price is positive), `netImpactPerWeek` and
`totalImpact`, all in terms of the coerced fields. -/
theorem overtimeCalc_spec_equations (s : Inputs) :
    (overtimeCalc s).otLaborCost
        = num s.otHours 0 * num s.laborRate 0 * num s.otPremium 0 *
            (1 + num s.overheadPct 0 / 100) ∧
    (overtimeCalc s).deltaGoodUnits
        = num s.baselineUnitsPerHr 0 * num s.runtimePerWeek 0 *
              (num s.fatiguePerfDeltaPct 0 / 100)
          - num s.baselineUnitsPerHr 0 * num s.runtimePerWeek 0 *
              (num s.fatigueScrapDeltaPp 0 / 100)
          - num s.fatigueDowntimeDeltaHr 0 * num s.baselineUnitsPerHr 0 ∧
    (overtimeCalc s).profitFromUnits
        = (if num s.sellPrice 0 > 0 then
             (overtimeCalc s).deltaGoodUnits * num s.sellPrice 0 *
               (num s.cmPct 0 / 100)
           else 0) ∧
    (overtimeCalc s).netImpactPerWeek
        = (overtimeCalc s).profitFromUnits - (overtimeCalc s).otLaborCost ∧
    (overtimeCalc s).totalImpact
        = (overtimeCalc s).netImpactPerWeek * num s.horizonWeeks 0 := by
  refine ⟨rfl, rfl, rfl, rfl, rfl⟩

/-- Claim C2: for every input parameter set, the delay-CAPEX record satisfies
`missedBenefitWeeks = max 0 (horizonWeeks - deploymentLeadWeeks)` (hence is
never negative), `lostSavingsWithinHorizon = (annualSavings / 52) *
missedBenefitWeeks`, `netImpactPerWeek = -(lostSavingsWithinHorizon /
horizonWeeks)` when the horizon is positive and `0` otherwise, and
`totalImpact = -lostSavingsWithinHorizon`. -/
theorem delayCapexCalc_spec_equations (s : Inputs) :
    (delayCapexCalc s).missedBenefitWeeks
        = max 0 (num s.horizonWeeks 0 - num s.deploymentLeadWeeks 0) ∧
    0 ≤ (delayCapexCalc s).missedBenefitWeeks ∧
    (delayCapexCalc s).lostSavingsWithinHorizon
        = num s.annualSavings 0 / 52 * (delayCapexCalc s).missedBenefitWeeks ∧
    (delayCapexCalc s).netImpactPerWeek
        = (if num s.horizonWeeks 0 > 0 then
             -((delayCapexCalc s).lostSavingsWithinHorizon / num s.horizonWeeks 0)
           else 0) ∧
    (delayCapexCalc s).totalImpact
        = -(delayCapexCalc s).lostSavingsWithinHorizon := by
  refine ⟨rfl, le_max_left 0 _, rfl, rfl, rfl⟩

/-- An input set violating readiness: the horizon is zero. -/
def exBadInputs : Inputs :=
  ⟨.fin 0, .fin 40, .fin 50, .fin 35, .fin 0, .fin 35, .fin 0,
    .fin 10, .fin (3/2), .fin (-3), .fin (1/2), .fin (1/5),
    .fin 100000, .fin 40000, .fin 8, .fin 10⟩

/-- An input set with positive baseline throughput and a negative fatigue
scrap delta (and the other deltas zero). -/
def exScrapNeg : Inputs :=
  ⟨.fin 6, .fin 1, .fin 1, .fin 35, .fin 0, .fin 35, .fin 0,
    .fin 0, .fin (3/2), .fin 0, .fin (-100), .fin 0,
    .fin 100000, .fin 40000, .fin 8, .fin 10⟩

/-- The spec's delay-CAPEX example with a deployment lead of two weeks. -/
def exCapexInputs : Inputs :=
  ⟨.fin 6, .fin 40, .fin 50, .fin 35, .fin 0, .fin 35, .fin 0,
    .fin 10, .fin (3/2), .fin (-3), .fin (1/2), .fin (1/5),
    .fin 100000, .fin 40000, .fin 2, .fin 10⟩

/-- Unfolds the net good-units delta of the overtime record. -/
theorem deltaGoodUnits_eq (s : Inputs) :
    (overtimeCalc s).deltaGoodUnits
      = num s.baselineUnitsPerHr 0 * num s.runtimePerWeek 0 *
            (num s.fatiguePerfDeltaPct 0 / 100)
        - num s.baselineUnitsPerHr 0 * num s.runtimePerWeek 0 *
            (num s.fatigueScrapDeltaPp 0 / 100)
        - num s.fatigueDowntimeDeltaHr 0 * num s.baselineUnitsPerHr 0 := rfl

/-- Unfolds the weekly net impact of the delay-CAPEX record. -/
theorem delayCapex_netImpactPerWeek_eq (s : Inputs) :
    (delayCapexCalc s).netImpactPerWeek
      = (if num s.horizonWeeks 0 > 0 then
           -(num s.annualSavings 0 / 52 *
               max 0 (num s.horizonWeeks 0 - num s.deploymentLeadWeeks 0) /
                 num s.horizonWeeks 0)
         else 0) := rfl

/-- Unfolds the total impact of the delay-CAPEX record. -/
theorem delayCapex_totalImpact_eq (s : Inputs) :
    (delayCapexCalc s).totalImpact
      = -(num s.annualSavings 0 / 52 *
            max 0 (num s.horizonWeeks 0 - num s.deploymentLeadWeeks 0)) := rfl

/-- Claim C3, counterexample: the empty-string sentinel does not return the
fallback argument.  In JavaScript `Number("") === 0`, a finite number, so
`num` returns `0` even when the fallback is `5`. -/
theorem num_emptyStr_cex :
    num JSVal.emptyStr 5 = 0 ∧ num JSVal.emptyStr 5 ≠ 5 := by
  refine ⟨rfl, ?_⟩
  intro h
  exact absurd h (by norm_num [num, toNumber, isFiniteNum, finVal])

/-- Claim C3, amended: `num` is total; a finite numeric input is returned
unchanged, a non-finite input (`NaN`, `±Infinity`) returns the fallback, and
the empty-string sentinel converts to the finite number `0` under
JavaScript's `Number` and is therefore returned as `0` — which coincides
with the fallback only when the fallback is its default `0`. -/
theorem num_coercion_amended (q fallback : ℚ) :
    num (JSVal.fin q) fallback = q ∧
    num JSVal.nan fallback = fallback ∧
    num JSVal.posInf fallback = fallback ∧
    num JSVal.negInf fallback = fallback ∧
    num JSVal.emptyStr fallback = 0 :=
  ⟨rfl, rfl, rfl, rfl, rfl⟩

/-- Claim C4: the readiness flag is true exactly when the four required
fields coerce to strictly positive numbers, and whenever one of them coerces
non-positively (which includes every non-finite value, since those coerce to
the fallback `0`) the flag is false and the results panel exposes no record,
whatever the decision and the other fields. -/
theorem readiness_gates_display (s : Inputs) (d : DecisionId) :
    (isReady s = true ↔
      (num s.horizonWeeks 0 > 0 ∧ num s.runtimePerWeek 0 > 0 ∧
        num s.baselineUnitsPerHr 0 > 0 ∧ num s.laborRate 0 > 0)) ∧
    ((num s.horizonWeeks 0 ≤ 0 ∨ num s.runtimePerWeek 0 ≤ 0 ∨
        num s.baselineUnitsPerHr 0 ≤ 0 ∨ num s.laborRate 0 ≤ 0) →
      isReady s = false ∧ shownRecord d s = none) := by
  have hiff : isReady s = true ↔
      (num s.horizonWeeks 0 > 0 ∧ num s.runtimePerWeek 0 > 0 ∧
        num s.baselineUnitsPerHr 0 > 0 ∧ num s.laborRate 0 > 0) := by
    simp only [isReady, Bool.and_eq_true, decide_eq_true_eq, and_assoc]
  refine ⟨hiff, fun h => ?_⟩
  have hfalse : isReady s = false := by
    rw [Bool.eq_false_iff]
    intro htrue
    have hp := hiff.mp htrue
    rcases h with h | h | h | h
    · exact absurd hp.1 (not_lt.mpr h)
    · exact absurd hp.2.1 (not_lt.mpr h)
    · exact absurd hp.2.2.1 (not_lt.mpr h)
    · exact absurd hp.2.2.2 (not_lt.mpr h)
  exact ⟨hfalse, by simp [shownRecord, hfalse]⟩

/-- Witness for C4 at a concrete input: with a zero horizon the flag is
false and nothing is shown. -/
theorem readiness_gates_display_witness :
    isReady exBadInputs = false ∧
      shownRecord DecisionId.overtime exBadInputs = none :=
  (readiness_gates_display exBadInputs DecisionId.overtime).2
    (Or.inl (by norm_num [exBadInputs, num, toNumber, isFiniteNum, finVal]))

/-- Claim C5, counterexample: with positive baseline throughput and a
negative fatigue scrap delta, `deltaGoodUnits` is strictly larger than with
the scrap delta zeroed, because the scrap term is subtracted with its sign,
so a negative scrap delta adds units rather than costing them. -/
theorem scrap_sign_cex :
    num exScrapNeg.baselineUnitsPerHr 0 > 0 ∧
    num exScrapNeg.runtimePerWeek 0 > 0 ∧
    ¬ ((overtimeCalc exScrapNeg).deltaGoodUnits ≤
        (overtimeCalc (withScrap exScrapNeg (JSVal.fin 0))).deltaGoodUnits) := by
  refine ⟨by norm_num [exScrapNeg, num, toNumber, isFiniteNum, finVal],
    by norm_num [exScrapNeg, num, toNumber, isFiniteNum, finVal], ?_⟩
  rw [deltaGoodUnits_eq, deltaGoodUnits_eq]
  norm_num [exScrapNeg, withScrap, num, toNumber, isFiniteNum, finVal]

/-- Claim C5, amended: with positive baseline throughput and a NONNEGATIVE
fatigue scrap delta, `deltaGoodUnits` is at most its value with the scrap
delta zeroed; the scrap term is subtracted regardless of sign, so only a
nonnegative scrap delta acts as a unit loss. -/
theorem scrap_nonneg_monotone (s : Inputs)
    (h1 : num s.baselineUnitsPerHr 0 > 0) (h2 : num s.runtimePerWeek 0 > 0)
    (h3 : 0 ≤ num s.fatigueScrapDeltaPp 0) :
    (overtimeCalc s).deltaGoodUnits ≤
      (overtimeCalc (withScrap s (JSVal.fin 0))).deltaGoodUnits := by
  rw [deltaGoodUnits_eq, deltaGoodUnits_eq]
  simp only [withScrap]
  have hU : 0 ≤ num s.baselineUnitsPerHr 0 * num s.runtimePerWeek 0 :=
    le_of_lt (mul_pos h1 h2)
  have hs : 0 ≤ num s.baselineUnitsPerHr 0 * num s.runtimePerWeek 0 *
      (num s.fatigueScrapDeltaPp 0 / 100) :=
    mul_nonneg hU (div_nonneg h3 (by norm_num))
  have h0 : num (JSVal.fin 0) 0 = 0 := rfl
  rw [h0]
  linarith

/-- Witness for C5 at the spec's example inputs (scrap delta `0.5 ≥ 0`). -/
theorem scrap_nonneg_monotone_witness :
    num exInputs.baselineUnitsPerHr 0 > 0 ∧
    num exInputs.runtimePerWeek 0 > 0 ∧
    0 ≤ num exInputs.fatigueScrapDeltaPp 0 ∧
    (overtimeCalc exInputs).deltaGoodUnits ≤
      (overtimeCalc (withScrap exInputs (JSVal.fin 0))).deltaGoodUnits :=
  ⟨by norm_num [exInputs, num, toNumber, isFiniteNum, finVal],
    by norm_num [exInputs, num, toNumber, isFiniteNum, finVal],
    by norm_num [exInputs, num, toNumber, isFiniteNum, finVal],
    scrap_nonneg_monotone exInputs
      (by norm_num [exInputs, num, toNumber, isFiniteNum, finVal])
      (by norm_num [exInputs, num, toNumber, isFiniteNum, finVal])
      (by norm_num [exInputs, num, toNumber, isFiniteNum, finVal])⟩

/-- Claim C6: the CAPEX amount and the cost of capital feed only the
carrying-cost side figure; changing them (and nothing else) leaves the two
headline outputs of the delay-CAPEX record unchanged. -/
theorem carrying_cost_noninterference (s : Inputs) (c k : JSVal) :
    (delayCapexCalc (withCapexFields s c k)).netImpactPerWeek
        = (delayCapexCalc s).netImpactPerWeek ∧
    (delayCapexCalc (withCapexFields s c k)).totalImpact
        = (delayCapexCalc s).totalImpact :=
  ⟨rfl, rfl⟩

/-- Claim C7: `money` is a total function; every input whose `Number`
conversion is not finite (`NaN`, `±Infinity`) renders as the zero-currency
string, and every finite numeric input renders as that amount in the
modelled currency format. -/
theorem money_cases (v : JSVal) :
    ((v = JSVal.nan ∨ v = JSVal.posInf ∨ v = JSVal.negInf) →
      money v = "$0") ∧
    (∀ q : ℚ, v = JSVal.fin q → money v = formatCurrencyUSD q) := by
  constructor
  · rintro (rfl | rfl | rfl) <;> rfl
  · rintro q rfl
    rfl

/-- Witness for C7 at concrete inputs: `NaN` renders as the zero string and
a finite amount renders through the currency formatter. -/
theorem money_cases_witness :
    money JSVal.nan = "$0" ∧ money (JSVal.fin 5) = formatCurrencyUSD 5 :=
  ⟨(money_cases JSVal.nan).1 (Or.inl rfl), (money_cases (JSVal.fin 5)).2 5 rfl⟩

/-- Claim C8: the selector yields a record exactly for the overtime and
delay-CAPEX identifiers; the four other identifiers resolve to no active
result for every input set. -/
theorem selector_active_only_implemented (s : Inputs) :
    active DecisionId.temp s = none ∧
    active DecisionId.headcount s = none ∧
    active DecisionId.deferpm s = none ∧
    active DecisionId.rate s = none ∧
    active DecisionId.overtime s
        = some (ActiveResult.overtime (overtimeCalc s)) ∧
    active DecisionId.capex s = some (ActiveResult.capex (delayCapexCalc s)) :=
  ⟨rfl, rfl, rfl, rfl, rfl, rfl⟩

/-- Claim C9: at the spec's delay-CAPEX example (horizon 6, CAPEX 100000,
annual savings 40000, lead 2, cost of capital 10) the formula yields a
weekly savings rate of `40000/52`, four missed benefit weeks, lost savings
of `160000/52`, a weekly net impact of `-160000/312` and a total impact of
`-160000/52`. -/
theorem delayCapex_example_lead_two :
    savingsPerWeekOf exCapexInputs = 40000 / 52 ∧
    (delayCapexCalc exCapexInputs).missedBenefitWeeks = 4 ∧
    (delayCapexCalc exCapexInputs).lostSavingsWithinHorizon = 160000 / 52 ∧
    (delayCapexCalc exCapexInputs).netImpactPerWeek = -(160000 / 312) ∧
    (delayCapexCalc exCapexInputs).totalImpact = -(160000 / 52) := by
  refine ⟨by norm_num [savingsPerWeekOf, exCapexInputs, num, toNumber, isFiniteNum, finVal],
    ?_, ?_, ?_, ?_⟩ <;>
    norm_num [delayCapexCalc, exCapexInputs, num, toNumber, isFiniteNum, finVal]

/-- Claim C10: whenever the coerced horizon is positive, the delay-CAPEX
record obeys the same headline identity as the overtime record:
`totalImpact = netImpactPerWeek * horizonWeeks`. -/
theorem capex_total_eq_week_times_horizon (s : Inputs)
    (h : num s.horizonWeeks 0 > 0) :
    (delayCapexCalc s).totalImpact
      = (delayCapexCalc s).netImpactPerWeek * num s.horizonWeeks 0 := by
  have hne : num s.horizonWeeks 0 ≠ 0 := ne_of_gt h
  rw [delayCapex_totalImpact_eq, delayCapex_netImpactPerWeek_eq, if_pos h,
    neg_mul, div_mul_cancel₀ _ hne]

/-- Witness for C10 at the spec's example inputs (horizon 6). -/
theorem capex_total_eq_week_times_horizon_witness :
    num exInputs.horizonWeeks 0 > 0 ∧
    (delayCapexCalc exInputs).totalImpact
      = (delayCapexCalc exInputs).netImpactPerWeek * num exInputs.horizonWeeks 0 :=
  ⟨by norm_num [exInputs, num, toNumber, isFiniteNum, finVal],
    capex_total_eq_week_times_horizon exInputs
      (by norm_num [exInputs, num, toNumber, isFiniteNum, finVal])⟩
